import Mathlib

/-!
Verification of the `simple-bot` voice pipeline integration script
(`src/simple-bot/simple-bot/main.py`) against its natural-language
specification.

The script wires a pipecat voice pipeline: it validates environment
credentials, constructs STT/LLM/TTS services, builds a fixed linear
pipeline of stages, registers transport event handlers, runs the
pipeline and tears it down.  We embed the script's control flow as
executable Lean functions over an abstract environment (a map from
variable names to optional string values), mirroring Python truthiness
for `os.getenv` results.  Parts of the runtime that live in the pipecat
library (the VAD debounce automaton, the turn-taking state machine, the
context append entry points, the interruption semantics of the
transport-output stage) are modelled from the spec, as marked on each
definition.
-/

namespace SimpleBot

/-- The process environment: `get name` is `os.getenv(name)`. -/
structure Env where
  get : String → Option String

/-- Python truthiness of an `os.getenv` result: `None` and the empty
string are falsy, any non-empty string is truthy. -/
def truthy : Option String → Bool
  | none => false
  | some s => !s.isEmpty

/-- Python `os.getenv(name, default)`: the default is used only when the
variable is unset (an empty string is returned verbatim). -/
def Env.getD (env : Env) (name dflt : String) : String :=
  (env.get name).getD dflt

/-- Errors the script can raise. -/
inductive PyError where
  | valueError (msg : String)
  | keyboardInterrupt
  deriving DecidableEq, Repr

/-- Observable events of a run of `main`, in program order: prints,
object constructions, handler registrations, the pipeline run and the
transport cleanup. -/
inductive Event where
  | printed (s : String)
  | constructedSTT
  | constructedLLM
  | constructedTTS
  | constructedTransport
  | constructedPipeline
  | constructedTask
  | registeredHandler (name : String)
  | ranPipeline
  | cleanup
  deriving DecidableEq, Repr

/-- Whether an event is the construction of a service, transport,
pipeline or task. -/
def Event.isConstruction : Event → Bool
  | .constructedSTT => true
  | .constructedLLM => true
  | .constructedTTS => true
  | .constructedTransport => true
  | .constructedPipeline => true
  | .constructedTask => true
  | _ => false

/-- Whether an event is a print. -/
def Event.isPrint : Event → Bool
  | .printed _ => true
  | _ => false

/-- The stages wired into the pipeline (`Pipeline([...])`, main.py
lines 146-173), one constructor per list element. -/
inductive Stage where
  | transportInput
  | sttService
  | userResponseAggregator
  | contextAggregatorUser
  | llmService
  | llmResponseAggregator
  | contextAggregatorAssistant
  | ttsService
  | transportOutput
  deriving DecidableEq, Repr

/-- The pipeline stage list exactly as constructed in main.py lines
146-173: transport.input(), stt, user_response_aggregator,
context_aggregator.user(), llm, llm_response_aggregator,
context_aggregator.assistant(), tts, transport.output(). -/
def mainPipelineStages : List Stage :=
  [ .transportInput
  , .sttService
  , .userResponseAggregator
  , .contextAggregatorUser
  , .llmService
  , .llmResponseAggregator
  , .contextAggregatorAssistant
  , .ttsService
  , .transportOutput ]

/-- The linear order demanded by the spec's data-flow sentence:
transport input, then STT, then user response aggregator, then the
context aggregator's user side, then LLM, then LLM response aggregator,
then the context aggregator's assistant side, then TTS, then transport
output.  Written from the spec's words, to be compared with
`mainPipelineStages`. -/
def specDataFlowStages : List Stage :=
  [ .transportInput
  , .sttService
  , .userResponseAggregator
  , .contextAggregatorUser
  , .llmService
  , .llmResponseAggregator
  , .contextAggregatorAssistant
  , .ttsService
  , .transportOutput ]

/-- Message roles (spec data model: one of system, user, assistant). -/
inductive Role where
  | system
  | user
  | assistant
  deriving DecidableEq, Repr

/-- A conversation message. -/
structure Message where
  role : Role
  content : String
  deriving DecidableEq, Repr

/-- The system prompt from main.py lines 87-96. -/
def systemPrompt : String :=
  "You are a helpful and friendly assistant. " ++
  "Keep your responses concise and natural for voice conversation. " ++
  "Respond in a conversational, friendly tone."

/-- The initial message list constructed in main.py lines 87-96: a
single system-role message. -/
def mainInitialMessages : List Message :=
  [{ role := .system, content := systemPrompt }]

/-- The shared conversation context (`LLMContext(messages)`). -/
structure LLMContext where
  messages : List Message
  deriving DecidableEq, Repr

/-- VAD parameters as configured in main.py lines 136-141
(`start_secs=0.3`, `stop_secs=0.5`), in seconds. -/
structure VADParams where
  start_secs : ℚ
  stop_secs : ℚ
  deriving DecidableEq, Repr

/-- The VAD parameters passed to `SileroVADAnalyzer` in main.py. -/
def mainVADParams : VADParams :=
  { start_secs := 3 / 10, stop_secs := 5 / 10 }

/-- Pipeline task parameters (main.py lines 176-182). -/
structure PipelineParams where
  allow_interruptions : Bool
  enable_metrics : Bool
  deriving DecidableEq, Repr

/-- The task parameters passed to `PipelineTask` in main.py lines
176-182: `allow_interruptions=True`, `enable_metrics=True`. -/
def mainPipelineParams : PipelineParams :=
  { allow_interruptions := true, enable_metrics := true }

/-- The LiveKit video grants attached to a minted JWT (main.py lines
112-117). -/
structure VideoGrants where
  room_join : Bool
  room : String
  can_publish : Bool
  can_subscribe : Bool
  deriving DecidableEq, Repr

/-- The room token: either a JWT minted via the livekit api (identity,
display name, grants) or the verbatim value of `LIVEKIT_TOKEN`. -/
inductive Token where
  | jwt (identity name : String) (grants : VideoGrants)
  | fromEnv (value : String)
  deriving DecidableEq, Repr

/-- Error message of the required-credentials check (main.py lines
48-52). -/
def requiredMissingMsg : String :=
  "Missing required environment variables: " ++
  "LIVEKIT_URL, LIVEKIT_API_KEY, LIVEKIT_API_SECRET, OPENAI_API_KEY"

/-- Error message of the Deepgram check (main.py lines 68-69). -/
def deepgramRequiredMsg : String :=
  "DEEPGRAM_API_KEY is required for STT functionality"

/-- Error message of the token fallback (main.py lines 122-126). -/
def tokenRequiredMsg : String :=
  "LIVEKIT_TOKEN required if livekit package not installed. " ++
  "Install with: pip install livekit"

/-- The two warning lines printed when `DEEPGRAM_API_KEY` is falsy
(main.py lines 55-57). -/
def deepgramWarnPrints : List Event :=
  [ .printed "Warning: DEEPGRAM_API_KEY not set. STT will not work without it."
  , .printed "Get your API key from: https://console.deepgram.com/" ]

/-- Token acquisition, main.py lines 106-126: when the livekit package
imports, mint a JWT for `participant_name` with display name
"AI Assistant" and grants `room_join=True, room=room_name,
can_publish=True, can_subscribe=True`; on ImportError fall back to the
`LIVEKIT_TOKEN` environment variable, raising ValueError when it is
falsy. -/
def mintToken (livekitAvailable : Bool) (env : Env)
    (participant_name room_name : String) : Except PyError Token :=
  if livekitAvailable then
    .ok (.jwt participant_name "AI Assistant"
      { room_join := true, room := room_name
        can_publish := true, can_subscribe := true })
  else
    match env.get "LIVEKIT_TOKEN" with
    | some s =>
        if s.isEmpty then .error (.valueError tokenRequiredMsg)
        else .ok (.fromEnv s)
    | none => .error (.valueError tokenRequiredMsg)

/-- Everything `main` has assembled by the time it reaches
`runner.run(task)`. -/
structure BotSetup where
  stages : List Stage
  params : PipelineParams
  vad : VADParams
  token : Token
  context : LLMContext
  deriving DecidableEq, Repr

/-- The setup phase of `main` (main.py lines 42-205): credential
validation, optional-Deepgram warning, service / transport / pipeline /
task construction and handler registration.  Returns the assembled
state or the raised error, together with the trace of observable
events in program order. -/
def mainSetup (env : Env) (livekitAvailable : Bool) :
    Except PyError BotSetup × List Event :=
  let livekit_url := env.get "LIVEKIT_URL"
  let livekit_api_key := env.get "LIVEKIT_API_KEY"
  let livekit_api_secret := env.get "LIVEKIT_API_SECRET"
  let openai_api_key := env.get "OPENAI_API_KEY"
  let deepgram_api_key := env.get "DEEPGRAM_API_KEY"
  if !(truthy livekit_url && truthy livekit_api_key &&
       truthy livekit_api_secret && truthy openai_api_key) then
    (.error (.valueError requiredMissingMsg), [])
  else
    let warn := if !truthy deepgram_api_key then deepgramWarnPrints else []
    let room_name := env.getD "LIVEKIT_ROOM" "default-room"
    let participant_name := env.getD "LIVEKIT_PARTICIPANT_NAME" "assistant"
    let connectPrints : List Event :=
      [ .printed ("Connecting to LiveKit room: " ++ room_name)
      , .printed ("LiveKit URL: " ++ (livekit_url.getD "None")) ]
    let pre := warn ++ connectPrints
    if !truthy deepgram_api_key then
      (.error (.valueError deepgramRequiredMsg), pre)
    else
      let built := pre ++ [Event.constructedSTT, .constructedLLM, .constructedTTS]
      match mintToken livekitAvailable env participant_name room_name with
      | .error e => (.error e, built)
      | .ok token =>
        let trace := built ++
          [ Event.constructedTransport
          , .constructedPipeline
          , .constructedTask
          , .registeredHandler "on_participant_connected"
          , .registeredHandler "on_participant_disconnected"
          , .registeredHandler "on_room_connected"
          , .registeredHandler "on_room_disconnected" ]
        (.ok { stages := mainPipelineStages
             , params := mainPipelineParams
             , vad := mainVADParams
             , token := token
             , context := { messages := mainInitialMessages } }, trace)

/-- Outcome of `await runner.run(task)`, which is external to the
script: it completes normally, is interrupted by KeyboardInterrupt, or
raises some other error. -/
inductive RunOutcome where
  | normal
  | keyboardInterrupt
  | raised (e : PyError)
  deriving DecidableEq, Repr

/-- The run/teardown phase of `main` (main.py lines 207-214):
`try: await runner.run(task)` / `except KeyboardInterrupt: print(...)`
/ `finally: await transport.cleanup()`.  The finally clause runs on
every exit path; KeyboardInterrupt is caught, other errors propagate
after cleanup. -/
def runPhase (out : RunOutcome) : Except PyError Unit × List Event :=
  match out with
  | .normal => (.ok (), [.ranPipeline, .cleanup])
  | .keyboardInterrupt =>
      (.ok (), [.ranPipeline, .printed "\nShutting down...", .cleanup])
  | .raised e => (.error e, [.ranPipeline, .cleanup])

/-- The whole of `main`: setup followed, on success, by the
run/teardown phase.  `runOut` abstracts what the external
`runner.run(task)` call does. -/
def pythonMain (env : Env) (livekitAvailable : Bool) (runOut : RunOutcome) :
    Except PyError Unit × List Event :=
  match mainSetup env livekitAvailable with
  | (.error e, tr) => (.error e, tr)
  | (.ok _, tr) =>
      let r := runPhase runOut
      (r.1, tr ++ r.2)

/-- Modelled from the spec: the context aggregator pair's user-side
write entry point `appendUser(text)` appends one user-role Message to
the shared Context (the pipecat `LLMContextAggregatorPair` internals
are not under src/). -/
def LLMContext.appendUser (c : LLMContext) (text : String) : LLMContext :=
  { messages := c.messages ++ [{ role := .user, content := text }] }

/-- Modelled from the spec: the context aggregator pair's
assistant-side write entry point `appendAssistant(text)` appends one
assistant-role Message to the shared Context. -/
def LLMContext.appendAssistant (c : LLMContext) (text : String) : LLMContext :=
  { messages := c.messages ++ [{ role := .assistant, content := text }] }

/-- A finalized turn written through one of the pair's two entry
points. -/
inductive AppendOp where
  | user (text : String)
  | assistant (text : String)
  deriving DecidableEq, Repr

/-- The message an append operation contributes. -/
def AppendOp.toMessage : AppendOp → Message
  | .user t => { role := .user, content := t }
  | .assistant t => { role := .assistant, content := t }

/-- Apply a sequence of finalized-turn appends through the pair's two
entry points, in order. -/
def applyAppends (c : LLMContext) : List AppendOp → LLMContext
  | [] => c
  | .user t :: ops => applyAppends (c.appendUser t) ops
  | .assistant t :: ops => applyAppends (c.appendAssistant t) ops

/-- Turn-taking states (spec data model). -/
inductive TTState where
  | idle
  | userSpeaking
  | processing
  | assistantSpeaking
  deriving DecidableEq, Repr

/-- What the turn-taking FSM does with detected user speech while the
assistant is speaking. -/
inductive InterruptAction where
  | interruptNow
  | queuedForLater
  | noAction
  deriving DecidableEq, Repr

/-- Modelled from the spec: the turn-taking FSM's reaction to a
SpeechStarted event, parametrized by the pipeline's
`allow_interruptions` option — Idle/AssistantSpeaking + SpeechStarted →
UserSpeaking, where from AssistantSpeaking the early transition is an
interruption, permitted only when `allow_interruptions` is true; when
it is false the FSM never transitions AssistantSpeaking→UserSpeaking
early and queues the interruption instead. -/
def ttOnSpeechStarted (allow_interruptions : Bool) :
    TTState → TTState × InterruptAction
  | .idle => (.userSpeaking, .noAction)
  | .assistantSpeaking =>
      if allow_interruptions then (.userSpeaking, .interruptNow)
      else (.assistantSpeaking, .queuedForLater)
  | s => (s, .noAction)

/-- Payload of a transport event delivered to a registered handler. -/
structure Participant where
  identity : String
  deriving DecidableEq, Repr

/-- Payload of a room-level transport event. -/
structure Room where
  name : String
  deriving DecidableEq, Repr

/-- A transport event together with its payload. -/
inductive TransportEvent where
  | participantConnected (p : Participant)
  | participantDisconnected (p : Participant)
  | roomConnected (r : Room)
  | roomDisconnected (r : Room)
  deriving DecidableEq, Repr

/-- Frames the handlers may inject into the pipeline task. -/
inductive PipeFrame where
  | llmRunFrame
  deriving DecidableEq, Repr

/-- What a handler does when invoked: lines printed and frames queued
into the pipeline task. -/
structure HandlerEffect where
  prints : List String
  queuedFrames : List PipeFrame
  deriving DecidableEq, Repr

/-- The four event handlers registered in main.py lines 185-205:
`on_participant_connected` prints and queues `[LLMRunFrame()]`; the
other three only print. -/
def handleTransportEvent : TransportEvent → HandlerEffect
  | .participantConnected p =>
      { prints := ["Participant connected: " ++ p.identity]
      , queuedFrames := [.llmRunFrame] }
  | .participantDisconnected p =>
      { prints := ["Participant disconnected: " ++ p.identity]
      , queuedFrames := [] }
  | .roomConnected r =>
      { prints := ["Bot connected to room: " ++ r.name]
      , queuedFrames := [] }
  | .roomDisconnected r =>
      { prints := ["Bot disconnected from room: " ++ r.name]
      , queuedFrames := [] }

/-- VAD debounce states (spec data model: Quiet, Starting, Speaking,
Stopping).  The `Nat` carried by `starting`/`stopping` counts the
consecutive chunks spent in that transitional phase so far. -/
inductive VadState where
  | quiet
  | starting (n : ℕ)
  | speaking
  | stopping (n : ℕ)
  deriving DecidableEq, Repr

/-- Events the VAD analyzer emits. -/
inductive VADEvent where
  | speechStarted
  | speechStopped
  deriving DecidableEq, Repr

/-- Number of equal-length chunks needed to cover a duration: the least
`n` with `n * chunkSecs ≥ secs`. -/
def chunksNeeded (secs chunkSecs : ℚ) : ℕ :=
  ⌈secs / chunkSecs⌉.toNat

/-- Modelled from the spec: one debounce step of the VAD analyzer (the
pipecat `SileroVADAnalyzer` internals are not under src/).  `high` is
whether this chunk's speech probability is above threshold.
Quiet→Starting→Speaking on sustained high probability (SpeechStarted
fires when the accumulated high chunks first cover `start_secs`);
Speaking→Stopping→Quiet on sustained low probability (SpeechStopped
when the low chunks first cover `stop_secs`); any reversal during
Starting/Stopping resets to the prior stable state (debounce, not
latch). -/
def vadStep (startChunks stopChunks : ℕ) :
    VadState → Bool → VadState × Option VADEvent
  | .quiet, true =>
      if startChunks ≤ 1 then (.speaking, some .speechStarted)
      else (.starting 1, none)
  | .starting n, true =>
      if startChunks ≤ n + 1 then (.speaking, some .speechStarted)
      else (.starting (n + 1), none)
  | .speaking, true => (.speaking, none)
  | .stopping _, true => (.speaking, none)
  | .quiet, false => (.quiet, none)
  | .starting _, false => (.quiet, none)
  | .speaking, false =>
      if stopChunks ≤ 1 then (.quiet, some .speechStopped)
      else (.stopping 1, none)
  | .stopping n, false =>
      if stopChunks ≤ n + 1 then (.quiet, some .speechStopped)
      else (.stopping (n + 1), none)

/-- Run the VAD analyzer over a sequence of chunk classifications,
returning the final state and the per-chunk emitted events. -/
def vadRun (startChunks stopChunks : ℕ) (s : VadState) :
    List Bool → VadState × List (Option VADEvent)
  | [] => (s, [])
  | b :: bs =>
      let st := vadStep startChunks stopChunks s b
      let rest := vadRun startChunks stopChunks st.1 bs
      (rest.1, st.2 :: rest.2)

/-- Frames arriving at the transport-output stage: synthesized assistant
audio tagged with the turn that produced it, the interruption control
frame, and a playback pull that plays the oldest buffered frame. -/
inductive OutFrame where
  | ttsAudio (turn payload : ℕ)
  | controlInterrupt
  | playTick
  deriving DecidableEq, Repr

/-- State of the transport-output stage: the turn currently being
spoken (AssistantSpeaking when `some`), the turns cancelled by
interruptions, and the buffered not-yet-played audio. -/
structure OutputState where
  current : Option ℕ
  cancelled : List ℕ
  buffer : List (ℕ × ℕ)
  deriving DecidableEq, Repr

/-- Initial transport-output state: silent, nothing cancelled, empty
buffer. -/
def outputInit : OutputState :=
  { current := none, cancelled := [], buffer := [] }

/-- Modelled from the spec: the transport-output stage's reaction to
one frame (the pipecat transport-output internals are not under src/).
TTS audio of a cancelled turn is dropped; other TTS audio is buffered
and marks its turn as the one being spoken; ControlInterrupt while
AssistantSpeaking cancels the current turn and flushes the buffered
not-yet-played audio rather than playing it late; a playback pull
emits the oldest buffered frame.  Returns the new state and the frames
actually played to the transport. -/
def outputStep (s : OutputState) : OutFrame → OutputState × List (ℕ × ℕ)
  | .ttsAudio t p =>
      if t ∈ s.cancelled then (s, [])
      else ({ current := some t, cancelled := s.cancelled
              buffer := s.buffer ++ [(t, p)] }, [])
  | .controlInterrupt =>
      match s.current with
      | some t => ({ current := none, cancelled := t :: s.cancelled
                     buffer := [] }, [])
      | none => ({ current := s.current, cancelled := s.cancelled
                   buffer := [] }, [])
  | .playTick =>
      match s.buffer with
      | [] => (s, [])
      | f :: rest => ({ current := s.current, cancelled := s.cancelled
                        buffer := rest }, [f])

/-- Run the transport-output stage over a frame sequence, returning the
final state and the concatenated played frames. -/
def outputRun (s : OutputState) : List OutFrame → OutputState × List (ℕ × ℕ)
  | [] => (s, [])
  | f :: fs =>
      let st := outputStep s f
      let rest := outputRun st.1 fs
      (rest.1, st.2 ++ rest.2)

/-! ## Concrete environments used by the witnesses -/

/-- Environment with every variable unset. -/
def envNone : Env := ⟨fun _ => none⟩

/-- Environment with every variable set to a non-empty value. -/
def envFull : Env := ⟨fun _ => some "x"⟩

/-- Environment with every variable set except `DEEPGRAM_API_KEY`. -/
def envNoDeepgram : Env :=
  ⟨fun n => if n = "DEEPGRAM_API_KEY" then none else some "x"⟩

/-- Environment with every variable set except `LIVEKIT_TOKEN`. -/
def envNoToken : Env :=
  ⟨fun n => if n = "LIVEKIT_TOKEN" then none else some "x"⟩

/-! ## Helper lemmas -/

/-- Appending finalized turns appends exactly their messages, in
order. -/
theorem applyAppends_messages (ops : List AppendOp) (c : LLMContext) :
    (applyAppends c ops).messages = c.messages ++ ops.map AppendOp.toMessage := by
  induction ops generalizing c with
  | nil => simp [applyAppends]
  | cons op ops ih =>
      cases op <;>
        simp [applyAppends, LLMContext.appendUser, LLMContext.appendAssistant,
          ih, AppendOp.toMessage]

/-- When the livekit package is unavailable and `LIVEKIT_TOKEN` is
falsy, `mintToken` raises the ValueError of main.py lines 122-126. -/
theorem mintToken_missing_token (env : Env) (pn rn : String)
    (h : truthy (env.get "LIVEKIT_TOKEN") = false) :
    mintToken false env pn rn = .error (.valueError tokenRequiredMsg) := by
  cases hv : env.get "LIVEKIT_TOKEN" with
  | none => simp [mintToken, hv]
  | some s =>
      have hs : s.isEmpty = true := by simpa [truthy, hv] using h
      simp [mintToken, hv, hs]

/-! ## Claims -/

/-- C1: the assembled pipeline connects its stages in exactly the fixed
linear order given by the spec's data flow — transport input, then STT,
then user response aggregator, then the context aggregator's user side,
then LLM, then LLM response aggregator, then the context aggregator's
assistant side, then TTS, then transport output — with no other stages
and no reordering. -/
theorem pipeline_order_matches_spec :
    mainPipelineStages = specDataFlowStages := by
  decide

/-- C2: whenever at least one of LIVEKIT_URL, LIVEKIT_API_KEY,
LIVEKIT_API_SECRET or OPENAI_API_KEY is unset (falsy), `main` raises
the missing-credentials ValueError with an empty event trace: no
service, transport, pipeline or task is constructed and no frame ever
flows. -/
theorem missing_credential_fatal_before_construction
    (env : Env) (avail : Bool) (runOut : RunOutcome)
    (h : truthy (env.get "LIVEKIT_URL") = false ∨
         truthy (env.get "LIVEKIT_API_KEY") = false ∨
         truthy (env.get "LIVEKIT_API_SECRET") = false ∨
         truthy (env.get "OPENAI_API_KEY") = false) :
    pythonMain env avail runOut =
      (.error (.valueError requiredMissingMsg), []) := by
  have hc : (truthy (env.get "LIVEKIT_URL") && truthy (env.get "LIVEKIT_API_KEY") &&
      truthy (env.get "LIVEKIT_API_SECRET") && truthy (env.get "OPENAI_API_KEY")) = false := by
    rcases h with h | h | h | h <;> simp [h]
  simp [pythonMain, mainSetup, hc]

/-- Witness for C2 at the empty environment. -/
theorem missing_credential_fatal_before_construction_witness :
    truthy (envNone.get "LIVEKIT_URL") = false ∧
    pythonMain envNone true .normal =
      (.error (.valueError requiredMissingMsg), []) :=
  ⟨rfl, missing_credential_fatal_before_construction envNone true .normal (Or.inl rfl)⟩

/-- C5: the conversation context starts as exactly one system-role
message, and after any sequence of appends through the pair's two write
entry points the snapshot is the initial system message followed by the
finalized user/assistant turns in append order — never reordered or
deleted. -/
theorem context_starts_system_and_appends_in_order :
    mainInitialMessages = [{ role := Role.system, content := systemPrompt }] ∧
    ∀ ops : List AppendOp,
      (applyAppends { messages := mainInitialMessages } ops).messages =
        { role := Role.system, content := systemPrompt } :: ops.map AppendOp.toMessage := by
  refine ⟨rfl, fun ops => ?_⟩
  rw [applyAppends_messages]
  rfl

/-- C6: the pipeline task is created with `allow_interruptions = true`,
under which the turn-taking FSM transitions AssistantSpeaking to
UserSpeaking early on detected user speech (emitting the interruption)
rather than queuing it, as it would with the flag false. -/
theorem allow_interruptions_enables_early_transition :
    mainPipelineParams.allow_interruptions = true ∧
    ttOnSpeechStarted mainPipelineParams.allow_interruptions .assistantSpeaking =
      (.userSpeaking, .interruptNow) ∧
    ttOnSpeechStarted false .assistantSpeaking =
      (.assistantSpeaking, .queuedForLater) :=
  ⟨rfl, rfl, rfl⟩

/-- C7: for every participant-connected event the registered handler
queues exactly one LLMRunFrame into the pipeline task, and the
participant-disconnected and room-connected/disconnected handlers
inject no frames. -/
theorem participant_connected_queues_one_llm_run :
    (∀ p : Participant,
      (handleTransportEvent (.participantConnected p)).queuedFrames = [.llmRunFrame]) ∧
    (∀ p : Participant,
      (handleTransportEvent (.participantDisconnected p)).queuedFrames = []) ∧
    (∀ r : Room, (handleTransportEvent (.roomConnected r)).queuedFrames = []) ∧
    (∀ r : Room, (handleTransportEvent (.roomDisconnected r)).queuedFrames = []) :=
  ⟨fun _ => rfl, fun _ => rfl, fun _ => rfl, fun _ => rfl⟩

/-- C9: when the four required variables are set but DEEPGRAM_API_KEY
is unset, `main` prints the optional-key warning and then
unconditionally raises the Deepgram ValueError; the whole trace is
prints only, so the pipeline is never built and no path runs without a
Deepgram key. -/
theorem deepgram_unset_warns_then_raises
    (env : Env) (avail : Bool) (runOut : RunOutcome)
    (h1 : truthy (env.get "LIVEKIT_URL") = true)
    (h2 : truthy (env.get "LIVEKIT_API_KEY") = true)
    (h3 : truthy (env.get "LIVEKIT_API_SECRET") = true)
    (h4 : truthy (env.get "OPENAI_API_KEY") = true)
    (h5 : truthy (env.get "DEEPGRAM_API_KEY") = false) :
    (pythonMain env avail runOut).1 = .error (.valueError deepgramRequiredMsg) ∧
    (pythonMain env avail runOut).2.take 2 = deepgramWarnPrints ∧
    ∀ e ∈ (pythonMain env avail runOut).2, e.isPrint = true := by
  simp [pythonMain, mainSetup, h1, h2, h3, h4, h5, deepgramWarnPrints, Event.isPrint]

/-- Witness for C9 at an environment lacking only DEEPGRAM_API_KEY. -/
theorem deepgram_unset_warns_then_raises_witness :
    truthy (envNoDeepgram.get "DEEPGRAM_API_KEY") = false ∧
    (pythonMain envNoDeepgram true .normal).1 =
      .error (.valueError deepgramRequiredMsg) :=
  ⟨rfl, (deepgram_unset_warns_then_raises envNoDeepgram true .normal
    rfl rfl rfl rfl rfl).1⟩

/-- C10: when the livekit package is unavailable, the LIVEKIT_TOKEN
environment variable is used verbatim as the room token, a ValueError
aborts startup when it is unset, and when the package is available a
JWT is minted with room_join, can_publish and can_subscribe grants for
the configured room and participant identity. -/
theorem livekit_token_fallback :
    (∀ (env : Env) (pn rn : String), truthy (env.get "LIVEKIT_TOKEN") = false →
      mintToken false env pn rn = .error (.valueError tokenRequiredMsg)) ∧
    (∀ (env : Env) (pn rn s : String), env.get "LIVEKIT_TOKEN" = some s →
      s.isEmpty = false → mintToken false env pn rn = .ok (.fromEnv s)) ∧
    (∀ (env : Env) (pn rn : String),
      mintToken true env pn rn = .ok (.jwt pn "AI Assistant"
        { room_join := true, room := rn, can_publish := true, can_subscribe := true })) ∧
    (∀ (env : Env) (runOut : RunOutcome),
      truthy (env.get "LIVEKIT_URL") = true →
      truthy (env.get "LIVEKIT_API_KEY") = true →
      truthy (env.get "LIVEKIT_API_SECRET") = true →
      truthy (env.get "OPENAI_API_KEY") = true →
      truthy (env.get "DEEPGRAM_API_KEY") = true →
      truthy (env.get "LIVEKIT_TOKEN") = false →
      (pythonMain env false runOut).1 = .error (.valueError tokenRequiredMsg)) := by
  refine ⟨mintToken_missing_token, ?_, fun _ _ _ => rfl, ?_⟩
  · intro env pn rn s hv hs
    simp [mintToken, hv, hs]
  · intro env runOut h1 h2 h3 h4 h5 h6
    have hm := mintToken_missing_token env
      (env.getD "LIVEKIT_PARTICIPANT_NAME" "assistant")
      (env.getD "LIVEKIT_ROOM" "default-room") h6
    simp [pythonMain, mainSetup, h1, h2, h3, h4, h5, hm]

/-- Witness for C10 at an environment lacking only LIVEKIT_TOKEN. -/
theorem livekit_token_fallback_witness :
    truthy (envNoToken.get "LIVEKIT_TOKEN") = false ∧
    mintToken false envNoToken "assistant" "default-room" =
      .error (.valueError tokenRequiredMsg) ∧
    mintToken true envNoToken "assistant" "default-room" =
      .ok (.jwt "assistant" "AI Assistant"
        { room_join := true, room := "default-room"
          can_publish := true, can_subscribe := true }) ∧
    (pythonMain envNoToken false .normal).1 =
      .error (.valueError tokenRequiredMsg) :=
  ⟨rfl, livekit_token_fallback.1 envNoToken "assistant" "default-room" rfl,
   livekit_token_fallback.2.2.1 envNoToken "assistant" "default-room",
   livekit_token_fallback.2.2.2 envNoToken .normal rfl rfl rfl rfl rfl rfl⟩

/-- Whether the setup phase of `main` completes without raising. -/
def mainSetupOk (env : Env) (livekitAvailable : Bool) : Bool :=
  match (mainSetup env livekitAvailable).1 with
  | .ok _ => true
  | .error _ => false

/-- C8: once setup succeeds, a KeyboardInterrupt raised while the
runner is running is caught rather than propagating out of `main`
(result is ok, as on normal completion), and `transport.cleanup()` is
the final action on every exit path from the run. -/
theorem keyboard_interrupt_caught_and_cleanup
    (env : Env) (avail : Bool)
    (h : mainSetupOk env avail = true) :
    (pythonMain env avail .keyboardInterrupt).1 = .ok () ∧
    (pythonMain env avail .normal).1 = .ok () ∧
    ∀ runOut : RunOutcome,
      (pythonMain env avail runOut).2.getLast? = some .cleanup := by
  rcases hm : mainSetup env avail with ⟨r, tr⟩
  cases r with
  | error e => simp [mainSetupOk, hm] at h
  | ok s =>
      refine ⟨by simp [pythonMain, hm, runPhase], by simp [pythonMain, hm, runPhase], ?_⟩
      intro runOut
      cases runOut with
      | normal =>
          simp only [pythonMain, hm, runPhase]
          rw [show ([Event.ranPipeline, Event.cleanup] : List Event) =
            [Event.ranPipeline] ++ [Event.cleanup] from rfl,
            ← List.append_assoc, List.getLast?_concat]
      | keyboardInterrupt =>
          simp only [pythonMain, hm, runPhase]
          rw [show ([Event.ranPipeline, Event.printed "\nShutting down...",
              Event.cleanup] : List Event) =
            [Event.ranPipeline, Event.printed "\nShutting down..."] ++ [Event.cleanup] from rfl,
            ← List.append_assoc, List.getLast?_concat]
      | raised e =>
          simp only [pythonMain, hm, runPhase]
          rw [show ([Event.ranPipeline, Event.cleanup] : List Event) =
            [Event.ranPipeline] ++ [Event.cleanup] from rfl,
            ← List.append_assoc, List.getLast?_concat]

/-- Witness for C8 at a fully provisioned environment. -/
theorem keyboard_interrupt_caught_and_cleanup_witness :
    mainSetupOk envFull true = true ∧
    (pythonMain envFull true .keyboardInterrupt).1 = .ok () :=
  ⟨rfl, (keyboard_interrupt_caught_and_cleanup envFull true rfl).1⟩

/-- Running the transport-output stage over a concatenation splits into
the two runs, with the played frames concatenated. -/
theorem outputRun_append (xs ys : List OutFrame) (s : OutputState) :
    outputRun s (xs ++ ys) =
      ((outputRun (outputRun s xs).1 ys).1,
       (outputRun s xs).2 ++ (outputRun (outputRun s xs).1 ys).2) := by
  induction xs generalizing s with
  | nil => simp [outputRun]
  | cons f fs ih => simp [outputRun, ih]

/-- Safety invariant of the transport-output stage: once a turn is
cancelled and none of its frames remain buffered, no frame of that
turn is ever played again. -/
theorem outputRun_cancelled_no_plays (fs : List OutFrame) :
    ∀ (s : OutputState) (t : ℕ), t ∈ s.cancelled → (∀ q ∈ s.buffer, q.1 ≠ t) →
      ∀ q ∈ (outputRun s fs).2, q.1 ≠ t := by
  induction fs with
  | nil =>
      intro s t _ _ q hq
      simp [outputRun] at hq
  | cons f fs ih =>
      intro s t hc hb q hq
      have hstep : (∀ q ∈ (outputStep s f).2, q.1 ≠ t) ∧
          t ∈ (outputStep s f).1.cancelled ∧
          (∀ q ∈ (outputStep s f).1.buffer, q.1 ≠ t) := by
        cases f with
        | ttsAudio u p =>
            by_cases hu : u ∈ s.cancelled
            · have he : outputStep s (.ttsAudio u p) = (s, []) := by
                simp [outputStep, hu]
              rw [he]
              exact ⟨by simp, hc, hb⟩
            · have hut : u ≠ t := fun he => hu (he ▸ hc)
              have he : outputStep s (.ttsAudio u p) =
                  ({ current := some u, cancelled := s.cancelled
                     buffer := s.buffer ++ [(u, p)] }, []) := by
                simp [outputStep, hu]
              rw [he]
              refine ⟨by simp, hc, ?_⟩
              intro q hq
              rcases List.mem_append.mp hq with h1 | h2
              · exact hb q h1
              · rw [List.mem_singleton.mp h2]
                exact hut
        | controlInterrupt =>
            cases hcur : s.current with
            | none =>
                have he : outputStep s .controlInterrupt =
                    ({ current := s.current, cancelled := s.cancelled
                       buffer := [] }, []) := by
                  simp [outputStep, hcur]
                rw [he]
                exact ⟨by simp, hc, by simp⟩
            | some u =>
                have he : outputStep s .controlInterrupt =
                    ({ current := none, cancelled := u :: s.cancelled
                       buffer := [] }, []) := by
                  simp [outputStep, hcur]
                rw [he]
                exact ⟨by simp, List.mem_cons_of_mem u hc, by simp⟩
        | playTick =>
            cases hbuf : s.buffer with
            | nil =>
                have he : outputStep s .playTick = (s, []) := by
                  simp [outputStep, hbuf]
                rw [he]
                exact ⟨by simp, hc, hb⟩
            | cons q0 rest =>
                have he : outputStep s .playTick =
                    ({ current := s.current, cancelled := s.cancelled
                       buffer := rest }, [q0]) := by
                  simp [outputStep, hbuf]
                rw [he]
                refine ⟨?_, hc, ?_⟩
                · intro q hq
                  rw [List.mem_singleton.mp hq]
                  exact hb q0 (hbuf ▸ List.mem_cons_self q0 rest)
                · intro q hq
                  exact hb q (hbuf ▸ List.mem_cons_of_mem q0 hq)
      simp only [outputRun] at hq
      rcases List.mem_append.mp hq with hq1 | hq2
      · exact hstep.1 q hq1
      · exact ih (outputStep s f).1 t hstep.2.1 hstep.2.2 q hq2

/-- C3: if a ControlInterrupt arrives while the transport-output stage
is in the AssistantSpeaking state (a current turn `t` is being spoken),
the buffered but not-yet-played audio is dropped at the interrupt, and
no frame of the interrupted turn `t` is played after the interrupt
frame: every played frame of turn `t` in the whole run already occurs
among the frames played before the interrupt. -/
theorem interrupt_stops_interrupted_turn_output
    (pre post : List OutFrame) (t : ℕ)
    (h : (outputRun outputInit pre).1.current = some t) :
    (outputRun outputInit (pre ++ [OutFrame.controlInterrupt])).1.buffer = [] ∧
    ∀ q ∈ (outputRun outputInit (pre ++ OutFrame.controlInterrupt :: post)).2,
      q.1 = t → q ∈ (outputRun outputInit pre).2 := by
  have hint : outputStep (outputRun outputInit pre).1 .controlInterrupt =
      ({ current := none, cancelled := t :: (outputRun outputInit pre).1.cancelled
         buffer := [] }, []) := by
    simp [outputStep, h]
  constructor
  · rw [outputRun_append]
    simp [outputRun, hint]
  · intro q hq hqt
    have hsplit : OutFrame.controlInterrupt :: post =
        [OutFrame.controlInterrupt] ++ post := rfl
    rw [hsplit, outputRun_append] at hq
    rcases List.mem_append.mp hq with h1 | h2
    · exact h1
    · exfalso
      rw [outputRun_append] at h2
      have hone : outputRun (outputRun outputInit pre).1 [OutFrame.controlInterrupt] =
          ({ current := none, cancelled := t :: (outputRun outputInit pre).1.cancelled
             buffer := [] }, []) := by
        simp [outputRun, hint]
      rw [hone] at h2
      rcases List.mem_append.mp h2 with h3 | h4
      · simp at h3
      · exact outputRun_cancelled_no_plays post _ t
          (List.mem_cons_self t _) (by simp) q h4 hqt

/-- Witness for C3: two frames of turn 0 are buffered, the interrupt
arrives while turn 0 is current, and the late frame and playback pull
after the interrupt play nothing of turn 0. -/
theorem interrupt_stops_interrupted_turn_output_witness :
    (outputRun outputInit [OutFrame.ttsAudio 0 1, OutFrame.ttsAudio 0 2]).1.current =
      some 0 ∧
    (outputRun outputInit ([OutFrame.ttsAudio 0 1, OutFrame.ttsAudio 0 2] ++
      [OutFrame.controlInterrupt])).1.buffer = [] :=
  ⟨by decide,
   (interrupt_stops_interrupted_turn_output
     [OutFrame.ttsAudio 0 1, OutFrame.ttsAudio 0 2]
     [OutFrame.ttsAudio 0 3, OutFrame.playTick] 0 (by decide)).1⟩

/-- Running the VAD over `bs ++ [b]` is running it over `bs` and then
one more step. -/
theorem vadRun_concat (sc tc : ℕ) (s : VadState) (bs : List Bool) (b : Bool) :
    vadRun sc tc s (bs ++ [b]) =
      ((vadStep sc tc (vadRun sc tc s bs).1 b).1,
       (vadRun sc tc s bs).2 ++ [(vadStep sc tc (vadRun sc tc s bs).1 b).2]) := by
  induction bs generalizing s with
  | nil => simp [vadRun]
  | cons c cs ih => simp [vadRun, ih]

/-- Invariant of the VAD at main's configuration (3 start chunks): when
the analyzer sits in `starting n`, then `1 ≤ n ≤ 2` and the last `n`
chunks were all high. -/
theorem vadRun_starting_inv (bs : List Bool) :
    ∀ n : ℕ, (vadRun 3 5 .quiet bs).1 = .starting n →
      1 ≤ n ∧ n ≤ 2 ∧ bs.reverse.take n = List.replicate n true := by
  induction bs using List.reverseRecOn with
  | nil =>
      intro n h
      simp [vadRun] at h
  | append_singleton cs c ih =>
      intro n h
      rw [vadRun_concat] at h
      have hrev : ∀ b : Bool, (cs ++ [b]).reverse = b :: cs.reverse := by
        intro b
        simp
      rcases hS : (vadRun 3 5 .quiet cs).1 with _ | m | _ | m <;>
        rw [hS] at h <;> cases c
      · -- quiet, low chunk: stays quiet
        simp [vadStep] at h
      · -- quiet, high chunk: enters starting 1
        simp [vadStep] at h
        refine ⟨by omega, by omega, ?_⟩
        rw [hrev, ← h]
        rfl
      · -- starting m, low chunk: resets to quiet
        simp [vadStep] at h
      · -- starting m, high chunk
        simp only [vadStep] at h
        split at h
        · simp at h
        · rename_i hlt
          have hn : n = m + 1 := by
            cases h
            rfl
          rcases ih m hS with ⟨h1, h2, h3⟩
          have hm1 : m = 1 := by omega
          subst hm1
          subst hn
          refine ⟨by omega, by omega, ?_⟩
          rw [hrev, List.take_succ_cons, h3]
          rfl
      · -- speaking, low chunk: enters stopping (or quiet), never starting
        simp only [vadStep] at h
        split at h <;> simp at h
      · -- speaking, high chunk: stays speaking
        simp [vadStep] at h
      · -- stopping m, low chunk: stays stopping or reaches quiet
        simp only [vadStep] at h
        split at h <;> simp at h
      · -- stopping m, high chunk: reverts to speaking
        simp [vadStep] at h

/-- C4 counterexample: with main's configuration (start_secs 0.3,
100 ms chunks, hence 3 chunks), after two high chunks the analyzer has
accumulated 2 chunks (0.2 s) in Starting; a single low chunk — a dip
shorter than start_secs — resets it to Quiet, so after the next high
chunk the accumulated timer is 1 chunk (0.1 s), strictly below the
previously accumulated 0.2 s, and no SpeechStarted is emitted anywhere
in the sequence.  This refutes the claim's no-reset clause. -/
theorem vad_dip_resets_timer_counterexample :
    (vadRun 3 5 .quiet [true, true]).1 = .starting 2 ∧
    (vadRun 3 5 .quiet [true, true, false, true]).1 = .starting 1 ∧
    (vadRun 3 5 .quiet [true, true, false, true]).2 =
      [none, none, none, none] := by
  decide

/-- C4 (amended): with the VAD configured at start_secs 0.3 and
stop_secs 0.5 and 100 ms chunks (3 and 5 chunks respectively),
SpeechStarted fires exactly when the probability has been continuously
above threshold for the last 3 chunks (0.3 s): 2 consecutive high
chunks do not fire, the 3rd does, a fire is always preceded by 3
consecutive high chunks, and a dip below threshold during Starting
resets the analyzer to Quiet (timer to zero), the debounce reverting to
the prior stable state. -/
theorem vad_start_debounce_amended :
    (chunksNeeded mainVADParams.start_secs (1 / 10) = 3 ∧
     chunksNeeded mainVADParams.stop_secs (1 / 10) = 5) ∧
    (vadRun 3 5 .quiet [true, true]).2 = [none, none] ∧
    (vadRun 3 5 .quiet [true, true, true]).2 =
      [none, none, some .speechStarted] ∧
    (∀ (bs : List Bool) (b : Bool),
      (vadRun 3 5 .quiet (bs ++ [b])).2.getLast? = some (some .speechStarted) →
      (bs ++ [b]).reverse.take 3 = [true, true, true]) ∧
    (∀ (bs : List Bool) (n : ℕ), (vadRun 3 5 .quiet bs).1 = .starting n →
      (vadRun 3 5 .quiet (bs ++ [false])).1 = .quiet) := by
  refine ⟨⟨?_, ?_⟩, by decide, by decide, ?_, ?_⟩
  · norm_num [chunksNeeded, mainVADParams]
    decide
  · norm_num [chunksNeeded, mainVADParams]
    decide
  · intro bs b h
    rw [vadRun_concat, List.getLast?_concat] at h
    have h' := Option.some.inj h
    have hrev : (bs ++ [true]).reverse = true :: bs.reverse := by
      simp
    rcases hS : (vadRun 3 5 .quiet bs).1 with _ | m | _ | m <;>
      rw [hS] at h' <;> cases b
    · simp [vadStep] at h'
    · simp [vadStep] at h'
    · simp [vadStep] at h'
    · -- starting m, high chunk: the only way SpeechStarted fires
      simp only [vadStep] at h'
      split at h'
      · rename_i hge
        rcases vadRun_starting_inv bs m hS with ⟨h1, h2, h3⟩
        have hm2 : m = 2 := by omega
        subst hm2
        rw [hrev, List.take_succ_cons, h3]
        rfl
      · simp at h'
    · simp only [vadStep] at h'
      split at h' <;> simp at h'
    · simp [vadStep] at h'
    · simp only [vadStep] at h'
      split at h' <;> simp at h'
    · simp [vadStep] at h'
  · intro bs n h
    rw [vadRun_concat, h]
    simp [vadStep]

/-- Witness for C4 (amended): three consecutive high chunks fire
SpeechStarted at the third, and the continuity clause instantiated
there yields the three trailing high chunks. -/
theorem vad_start_debounce_amended_witness :
    (vadRun 3 5 VadState.quiet ([true, true] ++ [true])).2.getLast? =
      some (some VADEvent.speechStarted) ∧
    ([true, true] ++ [true]).reverse.take 3 = [true, true, true] :=
  ⟨by decide, vad_start_debounce_amended.2.2.2.1 [true, true] true (by decide)⟩

end SimpleBot
